import Mathlib

/-!
Shallow embedding of `evaluation/burst_denoise/compute_score.py` (deep-rep).

The script evaluates burst denoising networks: for each network descriptor it
either loads previously saved prediction images or runs inference (with a
fixed-point quantization step), scores each prediction with three metrics,
and finally reports the arithmetic mean of each metric per network.

Modelling conventions:
* PyTorch tensors are rational-valued nested lists; the leading batch
  dimension added by `unsqueeze(0)` is omitted uniformly on both paths.
* External collaborators (dataset classes, metric implementations, the
  network itself, `cv2.imread`, `os.listdir`) are opaque parameters of the
  evaluation environment `EvalEnv`.
* Fallible Python operations (`/` by zero, `int()` conversion, `assert`)
  are embedded with `Except PyErr`.
-/

/-- Python runtime errors the script can raise. -/
inductive PyErr where
  | zeroDivisionError
  | valueError
  | assertionError
  deriving DecidableEq

/-- A (batch-free) 3-dimensional tensor of rational values, e.g. a network
prediction of shape C x H x W. -/
abbrev Tensor3 := List (List (List ℚ))

/-- A grayscale image as returned by `cv2.imread` on a single-channel 16-bit
png: integer pixel values arranged H x W. -/
abbrev GrayImage := List (List ℤ)

/-- A color image as returned by `cv2.imread` on a 3-channel 16-bit png:
integer pixel values arranged H x W x C. -/
abbrev ColorImage := List (List (List ℤ))

/-- `meta_info` of a dataset sample: the fields the script reads. -/
structure MetaInfo where
  burst_name : String
  sigma_estimate : Tensor3

/-- One sample `dataset[idx] = (burst, gt, meta_info)`: a burst of frames,
the ground truth image, and the metadata. -/
structure Sample where
  burst : List Tensor3
  gt : Tensor3
  meta : MetaInfo

/-- A network descriptor from the experiment setting: unique name, display
name, optional burst-size limit, and the loaded network as a function from
(burst, noise_estimate) to the prediction (first component of the net's
output pair). -/
structure NetworkDesc where
  unique_name : String
  display_name : String
  burst_sz : Option ℕ
  net : List Tensor3 → Tensor3 → Tensor3

/-- The environment of one `compute_score` call: its arguments together
with the opaque external collaborators (resolved experiment network list,
dataset, filesystem, metric functions). -/
structure EvalEnv where
  network_list : List NetworkDesc
  base_results_dir : String
  load_saved : Bool
  mode : String
  noise_level : ℤ
  dataset : List Sample
  /-- `os.listdir dir` when `os.path.isdir dir`, `none` when the directory
  is missing. -/
  listdir : String → Option (List String)
  readImageGray : String → GrayImage
  readImageColor : String → ColorImage
  psnr : Tensor3 → Tensor3 → MetaInfo → ℚ
  ssim : Tensor3 → Tensor3 → MetaInfo → ℚ
  lpips : Tensor3 → Tensor3 → MetaInfo → ℚ

/-- `torch.clamp(x, 0.0, 1.0)` on one element. -/
def clamp01 (v : ℚ) : ℚ := min (max v 0) 1

/-- `.short()`: conversion of a float to a 16-bit integer, i.e. truncation
toward zero (the clamped values `[0, 16384]` fit in int16). -/
def toShortInt (q : ℚ) : ℤ := if 0 ≤ q then ⌊q⌋ else -⌊-q⌋

/-- Line 124-125: `net_pred_int = (net_pred.clamp(0.0, 1.0) * 2 ** 14).short();
net_pred = net_pred_int.float() / (2 ** 14)` on one element. -/
def quantize1 (v : ℚ) : ℚ := ((toShortInt (clamp01 v * 2 ^ 14) : ℤ) : ℚ) / 2 ^ 14

/-- Elementwise quantization of a whole prediction tensor. -/
def quantizeT (t : Tensor3) : Tensor3 :=
  t.map (fun p => p.map (fun r => r.map quantize1))

/-- All elements of a 3-d tensor. -/
def t3elems (t : Tensor3) : List ℚ := t.flatten.flatten

/-- First dimension of a nested-list tensor. -/
def dim0 {α : Type} (t : List (List (List α))) : ℕ := t.length

/-- Second dimension (length of the first row). -/
def dim1 {α : Type} (t : List (List (List α))) : ℕ := (t.getD 0 []).length

/-- Third dimension (length of the first entry of the first row). -/
def dim2 {α : Type} (t : List (List (List α))) : ℕ := ((t.getD 0 []).getD 0 []).length

/-- Element access `t[i][j][k]` with a default for out-of-range indices. -/
def get3 {α : Type} (t : List (List (List α))) (i j k : ℕ) (d : α) : α :=
  ((t.getD i []).getD j []).getD k d

/-- The tensor has rectangular shape H x W x C. -/
def HasDims {α : Type} (t : List (List (List α))) (H W C : ℕ) : Prop :=
  t.length = H ∧ ∀ row ∈ t, row.length = W ∧ ∀ px ∈ row, px.length = C

instance {α : Type} (t : List (List (List α))) (H W C : ℕ) :
    Decidable (HasDims t H W C) := by
  unfold HasDims; infer_instance

/-- `.permute(2, 0, 1)`: move the channel axis of an H x W x C tensor to the
front, producing a C x H x W tensor. -/
def permute201 (t : Tensor3) : Tensor3 :=
  (List.range (dim2 t)).map (fun c =>
    (List.range (dim0 t)).map (fun h =>
      (List.range (dim1 t)).map (fun w => get3 t h w c 0)))

/-- Line 116: divide the stored integer pixels of a color image by `2 ** 14`. -/
def colorToFloat (img : ColorImage) : Tensor3 :=
  img.map (fun row => row.map (fun px => px.map (fun (p : ℤ) => (p : ℚ) / 2 ^ 14)))

/-- Line 116: the color saved-results prediction
`(torch.from_numpy(img) / 2 ** 14).permute(2, 0, 1)`. -/
def loadPredColor (img : ColorImage) : Tensor3 := permute201 (colorToFloat img)

/-- Line 114: divide the stored integer pixels of a grayscale image by `2 ** 14`. -/
def grayToFloat (img : GrayImage) : List (List ℚ) :=
  img.map (fun row => row.map (fun (p : ℤ) => (p : ℚ) / 2 ^ 14))

/-- Line 114: the grayscale saved-results prediction, with the
`unsqueeze(0)` channel dimension. -/
def loadPredGray (img : GrayImage) : Tensor3 := [grayToFloat img]

/-- Line 87: `[res for res in result_list if res[-3:] == 'png']`. -/
def pngFiles (files : List String) : List String :=
  files.filter (fun r => r.takeRight 3 = "png")

/-- Line 80: `'{}/denoise_{}/noise_{}/{}'.format(base_results_dir, mode,
noise_level, n.get_unique_name())`. -/
def outDirFor (env : EvalEnv) (n : NetworkDesc) : String :=
  env.base_results_dir ++ "/denoise_" ++ env.mode ++ "/noise_" ++
    toString env.noise_level ++ "/" ++ n.unique_name

/-- Lines 82-92: `using_saved_results` is set exactly when `load_saved`
holds, the results directory exists, and the number of png files in it
equals the dataset length. -/
def usingSavedFor (env : EvalEnv) (n : NetworkDesc) : Bool :=
  env.load_saved &&
    (match env.listdir (outDirFor env n) with
     | none => false
     | some files => (pngFiles files).length == env.dataset.length)

/-- Lines 107-108: truncate the burst to the first `burst_sz` frames when
the descriptor's limit is set (`burst = burst[:, :n.burst_sz]`). -/
def burstInput (n : NetworkDesc) (b : List Tensor3) : List Tensor3 :=
  match n.burst_sz with
  | none => b
  | some k => b.take k

/-- Lines 110-125: the prediction for one sample. On the saved path the
stored image is read from `'{}/{}.png'.format(out_dir, burst_name)` and
rescaled; otherwise the network runs and its output is quantized. -/
def samplePred (env : EvalEnv) (n : NetworkDesc) (out_dir : String)
    (usv : Bool) (s : Sample) : Tensor3 :=
  let burst := burstInput n s.burst
  if usv then
    if env.mode = "grayscale" then
      loadPredGray (env.readImageGray (out_dir ++ "/" ++ s.meta.burst_name ++ ".png"))
    else
      loadPredColor (env.readImageColor (out_dir ++ "/" ++ s.meta.burst_name ++ ".png"))
  else
    quantizeT (n.net burst s.meta.sigma_estimate)

/-- Lines 61-71: metric dispatch by name. Only the three names of
`metrics = ('psnr', 'ssim', 'lpips')` ever reach this (any other name
raises at setup). -/
def metricFnFor (env : EvalEnv) (m : String) : Tensor3 → Tensor3 → MetaInfo → ℚ :=
  if m = "psnr" then env.psnr else if m = "ssim" then env.ssim else env.lpips

/-- The fixed metric tuple `metrics = ('psnr', 'ssim', 'lpips')`. -/
def metricNames : List String := ["psnr", "ssim", "lpips"]

/-- Line 128: the scalar recorded for metric `m` on sample `s`:
`m_fn(net_pred, gt.unsqueeze(0), meta_info=[meta_info, ]).cpu().item()`. -/
def metricValue (env : EvalEnv) (n : NetworkDesc) (usv : Bool) (m : String)
    (s : Sample) : ℚ :=
  metricFnFor env m (samplePred env n (outDirFor env n) usv s) s.gt s.meta

/-- Lines 78, 99-129: the per-network score table. `scores` starts as fresh
empty lists (`{k: [] for k, v in scores.items()}` over the metric names) and
the per-sample loop appends each metric's value (`scores[m].append(...)`). -/
def networkScores (env : EvalEnv) (n : NetworkDesc) : List (String × List ℚ) :=
  let usv := usingSavedFor env n
  env.dataset.foldl
    (fun sc s => sc.map (fun p => (p.1, p.2 ++ [metricValue env n usv p.1 s])))
    (metricNames.map (fun m => (m, ([] : List ℚ))))

/-- The observable outcome of one iteration of the network loop
(lines 77-131): whether saved results were used, whether the network
weights were loaded (lines 94-97), how many times `net(...)` ran
(line 121, once per sample on the inference path), and the score table. -/
structure NetEvalResult where
  usingSavedResults : Bool
  weightsLoaded : Bool
  inferenceRuns : ℕ
  scores : List (String × List ℚ)

/-- One iteration of the per-network loop. -/
def evalNetwork (env : EvalEnv) (n : NetworkDesc) : NetEvalResult :=
  let usv := usingSavedFor env n
  { usingSavedResults := usv
    weightsLoaded := !usv
    inferenceRuns := (env.dataset.map (fun _ => if usv then 0 else 1)).sum
    scores := networkScores env n }

/-- Line 133 (inner): Python mean `sum(s) / len(s)`; `/` raises
`ZeroDivisionError` on an empty list. -/
def meanOf (s : List ℚ) : Except PyErr ℚ :=
  if s.length = 0 then .error .zeroDivisionError
  else .ok (s.sum / (s.length : ℚ))

/-- Line 133: `{m: sum(s) / len(s) for m, s in scores.items()}`. -/
def meansOfScores (ms : List (String × List ℚ)) : Except PyErr (List (String × ℚ)) :=
  ms.mapM (fun p => (meanOf p.2).map (fun q => (p.1, q)))

/-- Line 133: `{net: {...} for net, scores in scores_all.items()}`. -/
def scoresAllMean (tbl : List (String × List (String × List ℚ))) :
    Except PyErr (List (String × List (String × ℚ))) :=
  tbl.mapM (fun p => (meansOfScores p.2).map (fun t => (p.1, t)))

/-- The report printed at lines 135-137: mode, noise level, and the
per-network per-metric means handed to `generate_formatted_report`. -/
structure Report where
  mode : String
  noise_level : ℤ
  table : List (String × List (String × ℚ))
  deriving DecidableEq

/-- Lines 38-137: `compute_score`, from the resolved environment to the
printed report (or the uncaught Python error). Lines 77-131 accumulate
`scores_all[n.get_display_name()] = scores`; line 133 aggregates. -/
def computeScore (env : EvalEnv) : Except PyErr Report :=
  let tbl := env.network_list.map (fun n => (n.display_name, networkScores env n))
  (scoresAllMean tbl).map (fun means =>
    { mode := env.mode, noise_level := env.noise_level, table := means })

/-- A nonempty ASCII digit string read as a natural number. -/
def parseDigits (ds : List Char) : Option ℕ :=
  if ds ≠ [] ∧ ds.all Char.isDigit then
    some (ds.foldl (fun n c => n * 10 + (c.toNat - 48)) 0)
  else none

/-- Python's built-in `int()` on an ASCII decimal string: surrounding
whitespace is stripped, an optional single sign is allowed, and the rest
must be a nonempty digit string; otherwise `ValueError`. -/
def pyInt (s : String) : Option ℤ :=
  let t := ((s.toList.dropWhile Char.isWhitespace).reverse.dropWhile
    Char.isWhitespace).reverse
  match t with
  | '-' :: ds => (parseDigits ds).map (fun k => -(k : ℤ))
  | '+' :: ds => (parseDigits ds).map (fun k => (k : ℤ))
  | ds => (parseDigits ds).map (fun k => (k : ℤ))

/-- One `compute_score(...)` call made by the `__main__` block, with its
arguments. -/
structure Invocation where
  setting : String
  mode : String
  noise_level : ℤ
  load_saved : Bool
  deriving DecidableEq

/-- Lines 152-157: the `__main__` dispatch on the `noise_level` argument.
`'all'` expands to levels 1, 2, 4, 8; otherwise `int(...)` may raise
`ValueError` and `assert int(...) in [1, 2, 4, 8]` may raise
`AssertionError`; the result lists the `compute_score` invocations in
order. -/
def mainDispatch (setting mode noise_level : String) (load_saved : Bool) :
    Except PyErr (List Invocation) :=
  if noise_level = "all" then
    .ok ([1, 2, 4, 8].map (fun l => ⟨setting, mode, l, load_saved⟩))
  else
    match pyInt noise_level with
    | none => .error .valueError
    | some k =>
      if k ∈ ([1, 2, 4, 8] : List ℤ) then .ok [⟨setting, mode, k, load_saved⟩]
      else .error .assertionError

/-! ### Concrete fixtures for the closed corollaries -/

/-- A concrete network descriptor with a burst-size limit of 2. -/
def netEx : NetworkDesc :=
  { unique_name := "netA", display_name := "Net A", burst_sz := some 2,
    net := fun _ _ => [[[(1 : ℚ) / 3]]] }

/-- A concrete dataset sample with a three-frame burst. -/
def sEx : Sample :=
  { burst := [[[[5]]], [[[6]]], [[[7]]]], gt := [[[0]]],
    meta := { burst_name := "b1", sigma_estimate := [[[1]]] } }

/-- A concrete environment whose saved-results directory holds exactly one
png file, matching the one-sample dataset. -/
def envA : EvalEnv :=
  { network_list := [netEx], base_results_dir := "res", load_saved := true,
    mode := "color", noise_level := 2, dataset := [sEx],
    listdir := fun _ => some ["a.png"],
    readImageGray := fun _ => [], readImageColor := fun _ => [[[1]]],
    psnr := fun _ _ _ => 0, ssim := fun _ _ _ => 0, lpips := fun _ _ _ => 0 }

/-- A concrete environment with an empty dataset and one network. -/
def envB : EvalEnv :=
  { envA with dataset := [], load_saved := false }

/-- A concrete `scores_all` table. -/
def tblEx : List (String × List (String × List ℚ)) :=
  [("Net A", [("psnr", [1, 3])])]

/-- A concrete stored color image of shape 1 x 1 x 3. -/
def imgEx : ColorImage := [[[10, 20, 30]]]

/-! ### Quantization properties -/

lemma clamp01_nonneg (v : ℚ) : 0 ≤ clamp01 v :=
  le_min (le_max_right v 0) (by norm_num)

lemma clamp01_le_one (v : ℚ) : clamp01 v ≤ 1 := min_le_right _ _

lemma clamp01_of_mem (v : ℚ) (h0 : 0 ≤ v) (h1 : v ≤ 1) : clamp01 v = v := by
  unfold clamp01
  rw [max_eq_left h0, min_eq_left h1]

/-- Every quantized value is `k / 16384` for some integer `0 ≤ k ≤ 16384`. -/
lemma quantize1_exists_k (v : ℚ) :
    ∃ k : ℕ, k ≤ 16384 ∧ quantize1 v = (k : ℚ) / 16384 := by
  have h0 : (0 : ℚ) ≤ clamp01 v := clamp01_nonneg v
  have h1 : clamp01 v ≤ 1 := clamp01_le_one v
  have hm0 : (0 : ℚ) ≤ clamp01 v * 2 ^ 14 := by positivity
  have hm1 : clamp01 v * 2 ^ 14 ≤ 16384 := by nlinarith
  have hz0 : (0 : ℤ) ≤ ⌊clamp01 v * 2 ^ 14⌋ := Int.le_floor.mpr (by exact_mod_cast hm0)
  have hz1 : ⌊clamp01 v * 2 ^ 14⌋ ≤ 16384 := by
    have h := Int.floor_le_floor hm1
    simpa using h
  refine ⟨(⌊clamp01 v * 2 ^ 14⌋).toNat, by omega, ?_⟩
  unfold quantize1 toShortInt
  rw [if_pos hm0]
  have hq : ((⌊clamp01 v * 2 ^ 14⌋.toNat : ℕ) : ℚ) = (⌊clamp01 v * 2 ^ 14⌋ : ℚ) := by
    exact_mod_cast Int.toNat_of_nonneg hz0
  rw [hq]
  norm_num

/-- Every element of a quantized tensor is the quantization of some value. -/
lemma mem_quantizeT (t : Tensor3) (x : ℚ) (hx : x ∈ t3elems (quantizeT t)) :
    ∃ v, x = quantize1 v := by
  simp [t3elems, quantizeT] at hx
  obtain ⟨l, ⟨a, ha, a1, ha1, rfl⟩, hxl⟩ := hx
  obtain ⟨v, hv, hxv⟩ := List.mem_map.mp hxl
  exact ⟨v, hxv.symm⟩

/-- C4: on the inference path, the encode step (multiply by `2 ** 14`,
convert to integer) followed by the decode step (divide by `2 ** 14`) is
idempotent: a second application leaves any `v ∈ [0, 1]` at the same value
as one application. -/
theorem quantize_idempotent (v : ℚ) (h0 : 0 ≤ v) (h1 : v ≤ 1) :
    quantize1 (quantize1 v) = quantize1 v := by
  obtain ⟨k, hk, he⟩ := quantize1_exists_k v
  rw [he]
  have hk0 : (0 : ℚ) ≤ (k : ℚ) / 16384 := by positivity
  have hk1 : (k : ℚ) / 16384 ≤ 1 := by
    rw [div_le_one (by norm_num)]
    exact_mod_cast hk
  unfold quantize1
  rw [clamp01_of_mem _ hk0 hk1]
  have hmul : (k : ℚ) / 16384 * 2 ^ 14 = (k : ℚ) := by
    field_simp
    norm_num
  rw [hmul]
  unfold toShortInt
  rw [if_pos (by positivity : (0 : ℚ) ≤ (k : ℚ))]
  rw [Int.floor_natCast]
  norm_num

/-- Closed corollary of `quantize_idempotent` at `v = 1 / 3`. -/
theorem quantize_idempotent_example :
    (0 : ℚ) ≤ 1 / 3 ∧ (1 : ℚ) / 3 ≤ 1 ∧
      quantize1 (quantize1 (1 / 3)) = quantize1 (1 / 3) :=
  ⟨by norm_num, by norm_num, quantize_idempotent (1 / 3) (by norm_num) (by norm_num)⟩

/-- C2: on the inference path (`using_saved_results` false), every element
of the prediction scored against the ground truth is an integer multiple of
`1 / 16384` lying in `[0, 1]`: it equals `k / 16384` for some `k ≤ 16384`. -/
theorem inference_pred_fixed_point (env : EvalEnv) (n : NetworkDesc) (s : Sample)
    (x : ℚ) (hx : x ∈ t3elems (samplePred env n (outDirFor env n) false s)) :
    ∃ k : ℕ, k ≤ 16384 ∧ x = (k : ℚ) / 16384 := by
  simp only [samplePred, Bool.false_eq_true, if_false] at hx
  obtain ⟨v, rfl⟩ := mem_quantizeT _ _ hx
  obtain ⟨k, hk, he⟩ := quantize1_exists_k v
  exact ⟨k, hk, he⟩

/-- Closed corollary of `inference_pred_fixed_point` on the fixture
network whose output element is `1 / 3`. -/
theorem inference_pred_fixed_point_example :
    ∃ k : ℕ, k ≤ 16384 ∧ quantize1 ((1 : ℚ) / 3) = (k : ℚ) / 16384 :=
  inference_pred_fixed_point envA netEx sEx (quantize1 ((1 : ℚ) / 3))
    (by simp [t3elems, samplePred, quantizeT, netEx, envA, sEx])

/-! ### Saved-results selection and burst truncation -/

lemma sum_map_one {α : Type} (l : List α) : (l.map (fun _ => (1 : ℕ))).sum = l.length := by
  induction l with
  | nil => rfl
  | cons a as ih => simp [ih, Nat.add_comm]

/-- C1: for a dataset of length `L`, the saved-results path is selected iff
`load_saved` is requested, the per-network output directory exists, and the
number of files named `*png` in it equals `L`; when selected the network
weights are not loaded, and otherwise the weights are loaded and inference
runs once per sample. -/
theorem saved_results_selection (env : EvalEnv) (n : NetworkDesc) :
    ((evalNetwork env n).usingSavedResults = true ↔
      env.load_saved = true ∧
        ∃ files, env.listdir (outDirFor env n) = some files ∧
          (pngFiles files).length = env.dataset.length) ∧
    ((evalNetwork env n).usingSavedResults = true →
      (evalNetwork env n).weightsLoaded = false) ∧
    ((evalNetwork env n).usingSavedResults = false →
      (evalNetwork env n).weightsLoaded = true ∧
        (evalNetwork env n).inferenceRuns = env.dataset.length) := by
  refine ⟨?_, ?_, ?_⟩
  · simp only [evalNetwork]
    unfold usingSavedFor
    cases henv : env.listdir (outDirFor env n) with
    | none => simp
    | some files => simp
  · intro h
    simp only [evalNetwork] at h ⊢
    simp [h]
  · intro h
    simp only [evalNetwork] at h ⊢
    simp [h, sum_map_one]

/-- Closed corollary of `saved_results_selection` on the fixture whose
saved-results directory matches the dataset length. -/
theorem saved_results_selection_example :
    (evalNetwork envA netEx).usingSavedResults = true ∧
    (evalNetwork envA netEx).weightsLoaded = false := by
  have h : (evalNetwork envA netEx).usingSavedResults = true := by decide
  exact ⟨h, (saved_results_selection envA netEx).2.1 h⟩

/-- C8: the burst passed to the network keeps only the first `burst_sz`
frames when the descriptor's limit is set, and is unchanged when the limit
is `none`. -/
theorem burst_size_truncation (n : NetworkDesc) (b : List Tensor3) :
    (∀ k, n.burst_sz = some k → burstInput n b = b.take k) ∧
    (n.burst_sz = none → burstInput n b = b) := by
  constructor
  · intro k hk
    simp [burstInput, hk]
  · intro hk
    simp [burstInput, hk]

/-- Closed corollary of `burst_size_truncation` on the fixture network
whose limit is 2 and the three-frame fixture burst. -/
theorem burst_size_truncation_example :
    burstInput netEx sEx.burst = sEx.burst.take 2 :=
  (burst_size_truncation netEx sEx.burst).1 2 rfl

/-! ### Saved color image layout -/

lemma getD_of_lt {α : Type} (l : List α) (i : ℕ) (d : α) (h : i < l.length) :
    l.getD i d = l[i] := by
  rw [List.getD_eq_getElem?_getD, List.getElem?_eq_getElem h]
  rfl

lemma getD_range_map {α : Type} (f : ℕ → α) (n i : ℕ) (d : α) (h : i < n) :
    ((List.range n).map f).getD i d = f i := by
  have hl : i < ((List.range n).map f).length := by simpa using h
  rw [getD_of_lt _ _ _ hl, List.getElem_map, List.getElem_range]

lemma colorToFloat_getD (img : ColorImage) (i : ℕ) (h : i < img.length) :
    (colorToFloat img).getD i [] =
      (img.getD i []).map (fun px => px.map (fun (p : ℤ) => (p : ℚ) / 2 ^ 14)) := by
  unfold colorToFloat
  rw [getD_of_lt _ _ _ (by simpa using h), getD_of_lt _ _ _ h]
  exact List.getElem_map _

lemma rowToFloat_getD (row : List (List ℤ)) (j : ℕ) (h : j < row.length) :
    (row.map (fun px => px.map (fun (p : ℤ) => (p : ℚ) / 2 ^ 14))).getD j [] =
      (row.getD j []).map (fun (p : ℤ) => (p : ℚ) / 2 ^ 14) := by
  rw [getD_of_lt _ _ _ (by simpa using h), getD_of_lt _ _ _ h]
  exact List.getElem_map _

lemma pxToFloat_getD (px : List ℤ) (k : ℕ) (h : k < px.length) :
    (px.map (fun (p : ℤ) => (p : ℚ) / 2 ^ 14)).getD k 0 = ((px.getD k 0 : ℤ) : ℚ) / 2 ^ 14 := by
  rw [getD_of_lt _ _ _ (by simpa using h), getD_of_lt _ _ _ h]
  exact List.getElem_map _

lemma get3_permute201 (t : Tensor3) (h w c : ℕ)
    (hh : h < dim0 t) (hw : w < dim1 t) (hc : c < dim2 t) :
    get3 (permute201 t) c h w 0 = get3 t h w c 0 := by
  unfold permute201 get3
  rw [getD_range_map _ _ _ _ hc, getD_range_map _ _ _ _ hh,
    getD_range_map _ _ _ _ hw]

lemma dim0_colorToFloat (img : ColorImage) : dim0 (colorToFloat img) = img.length := by
  simp [dim0, colorToFloat]

lemma dim1_colorToFloat (img : ColorImage) (h : 0 < img.length) :
    dim1 (colorToFloat img) = (img.getD 0 []).length := by
  unfold dim1
  rw [colorToFloat_getD _ _ h]
  simp

lemma dim2_colorToFloat (img : ColorImage) (h0 : 0 < img.length)
    (h1 : 0 < (img.getD 0 []).length) :
    dim2 (colorToFloat img) = ((img.getD 0 []).getD 0 []).length := by
  unfold dim2
  rw [colorToFloat_getD _ _ h0, rowToFloat_getD _ _ h1]
  simp

lemma get3_colorToFloat (img : ColorImage) (h w c : ℕ)
    (hh : h < img.length) (hw : w < (img.getD h []).length)
    (hc : c < ((img.getD h []).getD w []).length) :
    get3 (colorToFloat img) h w c 0 = ((get3 img h w c 0 : ℤ) : ℚ) / 2 ^ 14 := by
  unfold get3
  rw [colorToFloat_getD _ _ hh, rowToFloat_getD _ _ hw, pxToFloat_getD _ _ hc]

/-- C3: on the color saved-results path, the scored prediction at channel
`c`, row `h`, column `w` equals the stored integer pixel `img[h][w][c]`
divided by 16384: the channel axis is moved to the front. -/
theorem color_saved_channel_first (img : ColorImage) (H W C h w c : ℕ)
    (hd : HasDims img H W C) (hh : h < H) (hw : w < W) (hc : c < C) :
    get3 (loadPredColor img) c h w 0 = ((get3 img h w c 0 : ℤ) : ℚ) / 16384 := by
  obtain ⟨hlen, hrows⟩ := hd
  have hh' : h < img.length := by rw [hlen]; exact hh
  have hrow : img.getD h [] = img[h] := getD_of_lt _ _ _ hh'
  have hrW : img[h].length = W := (hrows _ (List.getElem_mem hh')).1
  have hw'' : w < img[h].length := by rw [hrW]; exact hw
  have hw' : w < (img.getD h []).length := by rw [hrow]; exact hw''
  have hpxel : img[h].getD w [] = img[h][w] := getD_of_lt _ _ _ hw''
  have hC : img[h][w].length = C := (hrows _ (List.getElem_mem hh')).2 _ (List.getElem_mem hw'')
  have hc' : c < ((img.getD h []).getD w []).length := by
    rw [hrow, hpxel, hC]; exact hc
  have h0 : 0 < img.length := lt_of_le_of_lt (Nat.zero_le h) hh'
  have hdim0 : h < dim0 (colorToFloat img) := by rw [dim0_colorToFloat]; exact hh'
  have hrow0 : img.getD 0 [] = img[0] := getD_of_lt _ _ _ h0
  have hrow0W : (img.getD 0 []).length = W := by
    rw [hrow0]; exact (hrows _ (List.getElem_mem h0)).1
  have hdim1 : w < dim1 (colorToFloat img) := by
    rw [dim1_colorToFloat _ h0, hrow0W]; exact hw
  have hW0 : 0 < (img.getD 0 []).length := by
    rw [hrow0W]; exact lt_of_le_of_lt (Nat.zero_le w) hw
  have hW0' : 0 < img[0].length := by rw [← hrow0]; exact hW0
  have hpx0 : img[0].getD 0 [] = img[0][0] := getD_of_lt _ _ _ hW0'
  have hpx0C : ((img.getD 0 []).getD 0 []).length = C := by
    rw [hrow0, hpx0]
    exact (hrows _ (List.getElem_mem h0)).2 _ (List.getElem_mem hW0')
  have hdim2 : c < dim2 (colorToFloat img) := by
    rw [dim2_colorToFloat _ h0 hW0, hpx0C]; exact hc
  unfold loadPredColor
  rw [get3_permute201 _ _ _ _ hdim0 hdim1 hdim2,
    get3_colorToFloat _ _ _ _ hh' hw' hc']
  norm_num

/-- Closed corollary of `color_saved_channel_first` on the 1 x 1 x 3
fixture image. -/
theorem color_saved_channel_first_example :
    HasDims imgEx 1 1 3 ∧
      get3 (loadPredColor imgEx) 2 0 0 0 = ((get3 imgEx 0 0 2 0 : ℤ) : ℚ) / 16384 :=
  ⟨by decide, color_saved_channel_first imgEx 1 1 3 0 0 2 (by decide) (by decide)
    (by decide) (by decide)⟩

/-! ### Score-table accumulation -/

/-- Appending one value per key to an association-list accumulator, folded
over a list, equals appending the whole mapped list per key. -/
lemma foldl_append_scores (f : String → Sample → ℚ) :
    ∀ (l : List Sample) (sc : List (String × List ℚ)),
      l.foldl (fun sc s => sc.map (fun p => (p.1, p.2 ++ [f p.1 s]))) sc =
        sc.map (fun p => (p.1, p.2 ++ l.map (f p.1))) := by
  intro l
  induction l with
  | nil =>
    intro sc
    simp
  | cons a as ih =>
    intro sc
    rw [List.foldl_cons, ih, List.map_map]
    congr 1
    funext p
    simp

/-- C9: the per-network score table holds, for each of the three metric
names, exactly the list of that network's own per-sample metric values in
dataset index order (hence one value per sample). -/
theorem network_scores_per_sample (env : EvalEnv) (n : NetworkDesc)
    (m : String) (l : List ℚ) (hml : (m, l) ∈ networkScores env n) :
    l = env.dataset.map (fun s => metricValue env n (usingSavedFor env n) m s) ∧
      l.length = env.dataset.length := by
  unfold networkScores at hml
  rw [foldl_append_scores] at hml
  simp only [List.map_map, metricNames, List.map_cons, List.map_nil,
    Function.comp] at hml
  simp only [List.mem_cons, List.mem_singleton, List.not_mem_nil,
    Prod.mk.injEq, List.nil_append] at hml
  rcases hml with ⟨rfl, rfl⟩ | ⟨rfl, rfl⟩ | ⟨⟨rfl, rfl⟩ | h⟩
  · exact ⟨rfl, by simp⟩
  · exact ⟨rfl, by simp⟩
  · exact ⟨rfl, by simp⟩
  · exact absurd h (by simp)

/-- Closed corollary of `network_scores_per_sample` on the fixture
environment. -/
theorem network_scores_per_sample_example :
    ([(0 : ℚ)] : List ℚ) =
      envA.dataset.map (fun s => metricValue envA netEx (usingSavedFor envA netEx) "psnr" s) ∧
    ([(0 : ℚ)] : List ℚ).length = envA.dataset.length :=
  network_scores_per_sample envA netEx "psnr" [0] (by decide)

/-! ### Mean aggregation -/

/-- `mapM` over a list on which the function always succeeds returns the
mapped list. -/
lemma mapM_ok_of_forall {α β : Type} (f : α → Except PyErr β) (g : α → β) :
    ∀ (l : List α), (∀ x ∈ l, f x = .ok (g x)) → l.mapM f = .ok (l.map g) := by
  intro l
  induction l with
  | nil => intro _; rfl
  | cons a as ih =>
    intro h
    rw [List.mapM_cons, h a (List.mem_cons_self a as),
      ih (fun x hx => h x (List.mem_cons_of_mem a hx))]
    rfl

/-- C5: when every recorded score list is nonempty, the aggregation step
succeeds and reports, for every network and metric, exactly the arithmetic
mean `sum / n` of the recorded values. -/
theorem mean_aggregation (tbl : List (String × List (String × List ℚ)))
    (h : ∀ p ∈ tbl, ∀ q ∈ p.2, q.2 ≠ ([] : List ℚ)) :
    scoresAllMean tbl =
      .ok (tbl.map (fun p =>
        (p.1, p.2.map (fun q => (q.1, q.2.sum / (q.2.length : ℚ)))))) := by
  unfold scoresAllMean
  apply mapM_ok_of_forall
  intro p hp
  have hin : meansOfScores p.2 =
      .ok (p.2.map (fun q => (q.1, q.2.sum / (q.2.length : ℚ)))) := by
    unfold meansOfScores
    apply mapM_ok_of_forall
    intro q hq
    have hne : q.2.length ≠ 0 := by
      intro hlen
      exact h p hp q hq (List.length_eq_zero.mp hlen)
    unfold meanOf
    rw [if_neg hne]
    rfl
  rw [hin]
  rfl

/-- Closed corollary of `mean_aggregation` on the fixture score table. -/
theorem mean_aggregation_example :
    scoresAllMean tblEx =
      .ok (tblEx.map (fun p =>
        (p.1, p.2.map (fun q => (q.1, q.2.sum / (q.2.length : ℚ)))))) :=
  mean_aggregation tblEx (by decide)

/-- C10: on an empty dataset with a nonempty network list, `compute_score`
raises `ZeroDivisionError` during mean aggregation (`len(s) = 0`) rather
than producing a report. -/
theorem empty_dataset_division_error (env : EvalEnv)
    (hd : env.dataset = []) (hn : env.network_list ≠ []) :
    computeScore env = .error .zeroDivisionError := by
  obtain ⟨n, rest, hl⟩ : ∃ n rest, env.network_list = n :: rest := by
    cases hcase : env.network_list with
    | nil => exact absurd hcase hn
    | cons a l => exact ⟨a, l, rfl⟩
  have hsc : networkScores env n = metricNames.map (fun m => (m, ([] : List ℚ))) := by
    unfold networkScores
    rw [hd]
    rfl
  unfold computeScore scoresAllMean
  rw [hl]
  dsimp only
  rw [List.map_cons, List.mapM_cons, hsc]
  rfl

/-- Closed corollary of `empty_dataset_division_error` on the fixture
environment with an empty dataset and one network. -/
theorem empty_dataset_division_error_example :
    computeScore envB = .error .zeroDivisionError :=
  empty_dataset_division_error envB rfl (by simp [envB, envA])

/-! ### CLI dispatch on the noise level -/

/-- C6: `noise_level = 'all'` invokes `compute_score` exactly four times,
once each for the levels 1, 2, 4, 8, in that order, with the other
arguments unchanged. -/
theorem noise_all_expansion (setting mode : String) (ls : Bool) :
    mainDispatch setting mode "all" ls =
      .ok [⟨setting, mode, 1, ls⟩, ⟨setting, mode, 2, ls⟩,
        ⟨setting, mode, 4, ls⟩, ⟨setting, mode, 8, ls⟩] := rfl

/-- C7 counterexample: the noise-level argument `"abc"` lies outside
`{1, 2, 4, 8, 'all'}`, yet the program fails with `ValueError` from the
`int(...)` conversion, not with an assertion failure. -/
theorem noise_level_nonint_no_assertion :
    mainDispatch "setting1" "grayscale" "abc" false = .error .valueError ∧
      PyErr.valueError ≠ PyErr.assertionError :=
  ⟨rfl, by simp⟩

/-- C7 (amended): a noise-level argument other than `'all'` always fails
before any evaluation: with `ValueError` when it is not a decimal integer
string, and with an assertion failure when it is a decimal integer whose
value is outside `{1, 2, 4, 8}`. -/
theorem noise_level_invalid_fails (setting mode nl : String) (ls : Bool)
    (hall : nl ≠ "all") :
    (pyInt nl = none → mainDispatch setting mode nl ls = .error .valueError) ∧
    (∀ k, pyInt nl = some k → k ∉ ([1, 2, 4, 8] : List ℤ) →
      mainDispatch setting mode nl ls = .error .assertionError) := by
  constructor
  · intro hnone
    unfold mainDispatch
    rw [if_neg hall, hnone]
  · intro k hk hmem
    unfold mainDispatch
    rw [if_neg hall, hk]
    exact if_neg hmem

/-- Closed corollary of `noise_level_invalid_fails` at the integer
argument `"3"`. -/
theorem noise_level_invalid_fails_example :
    mainDispatch "setting1" "grayscale" "3" false = .error .assertionError :=
  (noise_level_invalid_fails "setting1" "grayscale" "3" false (by decide)).2
    3 (by decide) (by decide)
